import Mathlib

/-
Verification of the deterministic core of the Hackeurope crisis-PR pipeline:
Signal Ingestion scoring (backend/src/agents/agent_1_watcher/node.py),
Risk Quantifier aggregation (backend/src/agents/agent_3_scorer/node.py),
Precedent Research confidence (backend/src/agents/agent_2_precedents/node.py),
and the Invoice Builder (backend/src/agents/agent_5_cfo/node.py with
backend/src/utils/paid_helpers.py).

Real arithmetic is embedded as exact rationals; the Python round(x, d) call is
modelled as half-up rounding at d decimal places (no claim below depends on a
half-way case).  Python str.lower/str.upper/str.strip are modelled
character-wise over the character list of the string.  Presentational string
fields (summaries, details, URLs, free-text reasoning) are omitted from the
records; every numeric and control-flow detail follows the source.
-/

namespace CrisisPR

/-- Rounding to d decimal places over exact rationals, modelling Python round(x, d). -/
def roundTo (d : ℕ) (q : ℚ) : ℚ := ((round (q * (10 : ℚ) ^ d) : ℤ) : ℚ) / (10 : ℚ) ^ d

/-- Two-decimal rounding, modelling Python round(x, 2). -/
def round2 (q : ℚ) : ℚ := roundTo 2 q

/-- Python str.lower(), character-wise. -/
def pyLower (s : String) : String := ⟨s.data.map Char.toLower⟩

/-- Python str.upper(), character-wise. -/
def pyUpper (s : String) : String := ⟨s.data.map Char.toUpper⟩

/-- Python str.strip(): remove leading and trailing whitespace. -/
def pyStrip (s : String) : String :=
  ⟨((s.data.dropWhile Char.isWhitespace).reverse.dropWhile Char.isWhitespace).reverse⟩

/-! ### shared/types.py — fixed tables -/

/-- SUBJECT_KEYS from backend/src/shared/types.py. -/
def SUBJECT_KEYS : List String :=
  ["security_fraud", "legal_compliance", "ethics_management", "labor_relations",
   "financial_performance", "operational_incident", "product_bug", "customer_service"]

/-- SUBJECT_RISK_MULTIPLIERS from backend/src/shared/types.py. -/
def SUBJECT_RISK_MULTIPLIERS : List (String × ℚ) :=
  [("security_fraud", 9/5), ("legal_compliance", 3/2), ("ethics_management", 9/5),
   ("labor_relations", 8/5), ("financial_performance", 7/5), ("operational_incident", 13/10),
   ("product_bug", 6/5), ("customer_service", 1)]

/-- SENTIMENT_WEIGHTS from backend/src/shared/types.py. -/
def SENTIMENT_WEIGHTS : List (String × ℚ) :=
  [("negative", 1), ("neutral", 1/2), ("positive", 1/10)]

/-! ### agent_1_watcher/node.py — ingestion scoring -/

/-- Models _get_risk_multiplier: SUBJECT_RISK_MULTIPLIERS.get(subject.strip().lower(), 1.0). -/
def get_risk_multiplier (subject : String) : ℚ :=
  ((SUBJECT_RISK_MULTIPLIERS.lookup (pyLower (pyStrip subject))).getD 1)

/-- SENTIMENT_WEIGHTS.get(sentiment, 0.5) as used at the exposure-score site. -/
def sentiment_weight (sentiment : String) : ℚ :=
  ((SENTIMENT_WEIGHTS.lookup sentiment).getD (1/2))

/-- Models _recency_multiplier on the parsed age of the article in days
(the no-date / unparsable-date paths of the source return 1.0 before
this schedule is consulted). -/
def recency_multiplier_of_days (days : ℚ) : ℚ :=
  if days < 2/24 then 3
  else if days < 3 then 3/2
  else if days < 7 then 6/5
  else if days < 30 then 1
  else 7/10

/-- Provider (Gemini) structured output for one article: the fields of
shared.types.ArticleScores that the scoring path reads. -/
structure ArticleScores where
  is_substantive_article : Bool
  subject : String
  authority_score : ℤ
  severity_score : ℤ
  sentiment : String
deriving DecidableEq

/-- One scored article as assembled at the end of the watcher loop
(scoring-relevant fields of the article dict). -/
structure Article where
  subject : String
  sentiment : String
  authority_score : ℤ
  severity_score : ℤ
  recency_multiplier : ℚ
  exposure_score : ℚ
deriving DecidableEq

/-- Steps C and D of the watcher loop: the article dict with
exposure_score = round((authority * severity) * risk_mult * recency * sentiment_weight, 2). -/
def mk_article (subject sentiment : String) (authority severity : ℤ)
    (recency_mult : ℚ) : Article :=
  { subject := subject
    sentiment := sentiment
    authority_score := authority
    severity_score := severity
    recency_multiplier := recency_mult
    exposure_score :=
      round2 (((authority : ℚ) * (severity : ℚ))
        * get_risk_multiplier subject * recency_mult * sentiment_weight sentiment) }

/-- Step B of the watcher loop for one surviving item: the branch on the
provider result (node.py lines 340-394).  none models a provider call that
failed after retries; the result is none iff the item is skipped as not
substantive. -/
def score_article (scores : Option ArticleScores) (recency_mult : ℚ) : Option Article :=
  match scores with
  | none =>
      some (mk_article "ethics_management" "neutral" 3 2 recency_mult)
  | some s =>
      if s.is_substantive_article = false then none
      else
        let subject := if SUBJECT_KEYS.contains s.subject then s.subject else "ethics_management"
        let sent0 := if s.sentiment = "" then "neutral" else s.sentiment
        let sent1 := pyStrip (pyLower sent0)
        let sentiment := if (SENTIMENT_WEIGHTS.lookup sent1).isSome then sent1 else "neutral"
        some (mk_article subject sentiment s.authority_score s.severity_score recency_mult)

/-- One surviving raw item together with its provider analysis (none on
provider failure) and its computed recency multiplier. -/
structure ItemAnalysis where
  scores : Option ArticleScores
  recency_mult : ℚ

/-- articles.sort(key=lambda a: a["exposure_score"], reverse=True) —
stable descending sort of the article list of the watcher. -/
def sort_by_exposure (l : List Article) : List Article :=
  l.mergeSort (fun a b => decide (b.exposure_score ≤ a.exposure_score))

/-- The full watcher article list: score every surviving item, drop the
non-substantive ones, sort by exposure score descending. -/
def watcher_articles (items : List ItemAnalysis) : List Article :=
  sort_by_exposure (items.filterMap (fun it => score_article it.scores it.recency_mult))

/-! ### agent_3_scorer/node.py — risk quantifier -/

def CAC : ℚ := 100
def ARR : ℚ := 1200
def TOTAL_CLIENTS : ℚ := 10000
def REACH_CAP : ℚ := 1000000
def REACH_MULTIPLIER : ℚ := 5000
def ACQUISITION_CONVERSION_RATE : ℚ := 1/200
def EXPOSURE_RATE : ℚ := 1/10
def CHURN_RATE_FACTOR : ℚ := 1/10

/-- DEDUP_WEIGHTS = [1.0, 0.2, 0.1]. -/
def DEDUP_WEIGHTS : List ℚ := [1, 1/5, 1/10]

/-- DEDUP_WEIGHTS[i] if i < len(DEDUP_WEIGHTS) else 0.1. -/
def dedup_weight (i : ℕ) : ℚ := DEDUP_WEIGHTS.getD i (1/10)

/-- Models _compute_reach: min(5000 * authority * (severity/2) * viral, REACH_CAP). -/
def compute_reach (authority severity : ℤ) (viral : ℚ) : ℚ :=
  min (REACH_MULTIPLIER * (authority : ℚ) * ((severity : ℚ) / 2) * viral) REACH_CAP

/-- Models _compute_exposed_clients: TOTAL_CLIENTS * (authority/5) * EXPOSURE_RATE. -/
def compute_exposed_clients (authority : ℤ) : ℚ :=
  TOTAL_CLIENTS * ((authority : ℚ) / 5) * EXPOSURE_RATE

/-- Models _compute_acquisition_loss: reach * ACQUISITION_CONVERSION_RATE * CAC. -/
def compute_acquisition_loss (reach : ℚ) : ℚ :=
  reach * ACQUISITION_CONVERSION_RATE * CAC

/-- Models _compute_churn_loss. -/
def compute_churn_loss (authority severity : ℤ) (topic_weight : ℚ) : ℚ :=
  compute_exposed_clients authority * ((severity : ℚ) / 5) * (topic_weight / 10)
    * CHURN_RATE_FACTOR * ARR

/-- Models _compute_value_at_risk: acquisition loss + churn loss. -/
def compute_value_at_risk (reach : ℚ) (authority severity : ℤ) (topic_weight : ℚ) : ℚ :=
  compute_acquisition_loss reach + compute_churn_loss authority severity topic_weight

/-- One enriched article as collected after the thread-pool join
(scoring-relevant fields only). -/
structure EnrichedArticle where
  id : ℕ
  value_at_risk : ℚ
  severity_score : ℤ
deriving DecidableEq

/-- sorted(enriched_articles, key=lambda a: a["value_at_risk"], reverse=True). -/
def sorted_by_var (l : List EnrichedArticle) : List EnrichedArticle :=
  l.mergeSort (fun a b => decide (b.value_at_risk ≤ a.value_at_risk))

/-- The dedup-weighted accumulation loop of scorer_node over the (already
sorted) article list, starting at index i: total += value_at_risk * weight(i). -/
def weighted_var_sum : List EnrichedArticle → ℕ → ℚ
  | [], _ => 0
  | a :: rest, i => a.value_at_risk * dedup_weight i + weighted_var_sum rest (i + 1)

/-- total_var_impact of scorer_node: sort by VaR descending, apply the dedup
weights, round the sum to 2 decimals (the empty-input early return also
yields 0). -/
def total_var_impact (l : List EnrichedArticle) : ℚ :=
  round2 (weighted_var_sum (sorted_by_var l) 0)

/-- The as_completed collection loop of scorer_node: enriched articles are
appended in completion order, failed enrichments (none) are skipped; the
returned articles list is exactly this list — it is not re-sorted. -/
def scorer_collect (results : List (Option EnrichedArticle)) : List EnrichedArticle :=
  results.filterMap id

/-- The "articles" entry returned by scorer_node, as a function of the
completion-ordered per-item results. -/
def scorer_output_articles (results : List (Option EnrichedArticle)) : List EnrichedArticle :=
  scorer_collect results

/-- The total_var_impact entry returned by scorer_node, as a function of the
completion-ordered per-item results. -/
def scorer_total_var (results : List (Option EnrichedArticle)) : ℚ :=
  total_var_impact (scorer_collect results)

/-! ### utils/paid_helpers.py — tier table -/

/-- One entry of TIER_PRICING. -/
structure Tier where
  name : String
  label : String
  price : ℚ
deriving DecidableEq

/-- TIER_PRICING from backend/src/utils/paid_helpers.py. -/
def TIER_PRICING : List (String × Tier) :=
  [("IGNORE", ⟨"Dismissed", "Fausse Alerte", 99⟩),
   ("SOFT", ⟨"Dismissed", "Fausse Alerte", 99⟩),
   ("MEDIUM", ⟨"Shield", "Crise Modérée", 999⟩),
   ("CRITICAL", ⟨"Full Defense", "Crise Majeure", 2499⟩)]

/-- get_tier: TIER_PRICING.get(alert_level.upper(), TIER_PRICING["MEDIUM"]). -/
def get_tier (alert_level : String) : Tier :=
  (TIER_PRICING.lookup (pyUpper alert_level)).getD ⟨"Shield", "Crise Modérée", 999⟩

def CONSULTING_HOUR_RATE_EUR : ℚ := 150
def BASE_AUDIT_FEE_EUR : ℚ := 500
def AUDIT_RISK_PERCENT : ℚ := 1/10000
def CRISIS_STRATEGY_FEE_EUR : ℚ := 2500

/-! ### agent_5_cfo/node.py — invoice builder -/

/-- One invoice line (numeric fields of shared.types.InvoiceLineItem). -/
structure InvoiceLineItem where
  agent : String
  event : String
  human_equivalent_value_eur : ℚ
  api_compute_cost_eur : ℚ
  gross_margin_percent : ℚ
deriving DecidableEq

/-- The invoice (numeric and structural fields of shared.types.Agent5Output). -/
structure Invoice where
  tier_name : String
  tier_label : String
  tier_price_eur : ℚ
  line_items : List InvoiceLineItem
  total_human_equivalent_eur : ℚ
  total_api_cost_eur : ℚ
  total_gross_margin_percent : ℚ
  roi_multiplier : ℚ
  action_refused : Bool
deriving DecidableEq

/-- The body of _build_invoice after the `tier = get_tier(alert_level)` line,
parameterised by that tier (node.py lines 36-145). -/
def build_invoice_with_tier (tier : Tier) (alert_level : String)
    (agent2_api agent3_api agent4_api : ℚ) (cases_count : ℕ) (total_var : ℚ) : Invoice :=
  let total_api := roundTo 4 (agent2_api + agent3_api + agent4_api)
  if alert_level = "IGNORE" then
    { tier_name := tier.name
      tier_label := tier.label
      tier_price_eur := tier.price
      line_items := []
      total_human_equivalent_eur := tier.price
      total_api_cost_eur := total_api
      total_gross_margin_percent := 0
      roi_multiplier := 0
      action_refused := true }
  else
    let hours_saved : ℚ := (cases_count : ℚ) * 3
    let agent2_consulting := hours_saved * CONSULTING_HOUR_RATE_EUR
    let agent3_consulting := round2 (BASE_AUDIT_FEE_EUR + total_var * AUDIT_RISK_PERCENT)
    let agent4_consulting := CRISIS_STRATEGY_FEE_EUR
    let total_consulting := agent2_consulting + agent3_consulting + agent4_consulting
    let line2 : InvoiceLineItem :=
      { agent := "Historical Strategist"
        event := "historical_precedents_extracted"
        human_equivalent_value_eur := round2 agent2_consulting
        api_compute_cost_eur := roundTo 4 agent2_api
        gross_margin_percent :=
          round2 (if 0 < agent2_consulting
            then ((agent2_consulting - agent2_api) / agent2_consulting) * 100 else 0) }
    let line3 : InvoiceLineItem :=
      { agent := "Risk Analyst"
        event := "risk_assessment_completed"
        human_equivalent_value_eur := agent3_consulting
        api_compute_cost_eur := roundTo 4 agent3_api
        gross_margin_percent :=
          round2 (if 0 < agent3_consulting
            then ((agent3_consulting - agent3_api) / agent3_consulting) * 100 else 0) }
    let line4 : InvoiceLineItem :=
      { agent := "Executive Strategist"
        event := "crisis_strategy_delivered"
        human_equivalent_value_eur := agent4_consulting
        api_compute_cost_eur := roundTo 4 agent4_api
        gross_margin_percent :=
          round2 (if 0 < agent4_consulting
            then ((agent4_consulting - agent4_api) / agent4_consulting) * 100 else 0) }
    let tier_margin := if 0 < tier.price then ((tier.price - total_api) / tier.price) * 100 else 0
    let roi_mult := if 0 < total_api then tier.price / total_api else 0
    { tier_name := tier.name
      tier_label := tier.label
      tier_price_eur := tier.price
      line_items := [line2, line3, line4]
      total_human_equivalent_eur := round2 total_consulting
      total_api_cost_eur := total_api
      total_gross_margin_percent := round2 tier_margin
      roi_multiplier := roundTo 1 roi_mult
      action_refused := false }

/-- Models _build_invoice: resolve the tier from the alert label, then build. -/
def build_invoice (agent2_api agent3_api agent4_api : ℚ) (cases_count : ℕ)
    (total_var : ℚ) (alert_level : String) : Invoice :=
  build_invoice_with_tier (get_tier alert_level) alert_level
    agent2_api agent3_api agent4_api cases_count total_var

/-! ### agent_2_precedents/node.py — source-quality confidence -/

/-- The source-quality branch of _run_pipeline (lines 584-592). -/
def source_confidence (total_chars num_sources : ℕ) : String :=
  if 10000 ≤ total_chars ∧ 10 ≤ num_sources then "high"
  else if 3000 ≤ total_chars ∧ 4 ≤ num_sources then "medium"
  else "low"

/-- confidence_rank.get(c, 1). -/
def confidence_rank (c : String) : ℕ :=
  ((([("low", 0), ("medium", 1), ("high", 2)] : List (String × ℕ)).lookup c).getD 1)

/-- The label dict {0: low, 1: medium, 2: high} applied to the min rank. -/
def confidence_label (n : ℕ) : String :=
  if n = 0 then "low" else if n = 1 then "medium" else "high"

/-- final confidence of _run_pipeline (lines 594-599): the min of the
self-reported provider confidence rank and the source-quality rank. -/
def final_confidence (provider : String) (total_chars num_sources : ℕ) : String :=
  confidence_label
    (min (confidence_rank provider) (confidence_rank (source_confidence total_chars num_sources)))

/-- The minimum of two confidence labels in the ordering low < medium < high,
as the spec words it (for comparison with final_confidence). -/
def conf_min (a b : String) : String :=
  if confidence_rank a ≤ confidence_rank b then a else b

/-- The dedup weight sequence as the spec words it: 1.0 for the first signal,
0.2 for the second, 0.1 for the third and every later one. -/
def spec_weight (i : ℕ) : ℚ :=
  if i = 0 then 1 else if i = 1 then 1/5 else 1/10

/-- The portfolio VaR as the spec words it: sum of weight[i] * valueAtRisk[i]
over the signals sorted by valueAtRisk descending, rounded to 2 decimals;
0 for an empty list (for comparison with total_var_impact). -/
def spec_total_var (l : List EnrichedArticle) : ℚ :=
  if l = [] then 0
  else round2 (((sorted_by_var l).enum.map
    (fun p => spec_weight p.1 * p.2.value_at_risk)).sum)


/-! ### Helper lemmas -/

theorem round_mono_q {a b : ℚ} (h : a ≤ b) : round a ≤ round b := by
  rw [round_eq, round_eq]
  exact Int.floor_le_floor (by linarith)

theorem roundTo_eq_of_mul (d : ℕ) (q : ℚ) (m : ℤ) (h : q * 10 ^ d = (m : ℚ)) :
    roundTo d q = (m : ℚ) / 10 ^ d := by
  unfold roundTo
  rw [h, round_intCast]

theorem round2_eval (q : ℚ) (m : ℤ) (h : q * 100 = (m : ℚ)) : round2 q = (m : ℚ) / 100 := by
  have h2 : q * 10 ^ 2 = (m : ℚ) := by rw [← h]; norm_num
  show roundTo 2 q = _
  rw [roundTo_eq_of_mul 2 q m h2]
  norm_num

theorem round2_cent (m : ℤ) : round2 ((m : ℚ) / 100) = (m : ℚ) / 100 := by
  rw [round2_eval ((m : ℚ) / 100) m (by field_simp)]

theorem round2_zero : round2 0 = 0 := by
  have := round2_eval 0 0 (by norm_num)
  simpa using this

theorem roundTo_zero (d : ℕ) : roundTo d 0 = 0 := by
  unfold roundTo
  simp

theorem round2_le_cent (x : ℚ) (m : ℤ) (h : x ≤ (m : ℚ) / 100) : round2 x ≤ (m : ℚ) / 100 := by
  show roundTo 2 x ≤ _
  unfold roundTo
  have h1 : x * 10 ^ 2 ≤ (m : ℚ) := by nlinarith
  have h2 : round (x * 10 ^ 2) ≤ round ((m : ℚ)) := round_mono_q h1
  rw [round_intCast] at h2
  have h3 : ((round (x * 10 ^ 2) : ℤ) : ℚ) ≤ (m : ℚ) := by exact_mod_cast h2
  have h4 : (0 : ℚ) < 10 ^ 2 := by norm_num
  calc ((round (x * 10 ^ 2) : ℤ) : ℚ) / 10 ^ 2 ≤ (m : ℚ) / 10 ^ 2 := by
        exact div_le_div_of_nonneg_right h3 (by norm_num)
    _ = (m : ℚ) / 100 := by norm_num

theorem dedup_weight_eq_spec (i : ℕ) : dedup_weight i = spec_weight i := by
  match i with
  | 0 => rfl
  | 1 => rfl
  | 2 => rfl
  | (n + 3) => rfl

theorem dedup_weight_le_one (i : ℕ) : dedup_weight i ≤ 1 := by
  rw [dedup_weight_eq_spec]
  unfold spec_weight
  split_ifs <;> norm_num

theorem dedup_weight_nonneg (i : ℕ) : 0 ≤ dedup_weight i := by
  rw [dedup_weight_eq_spec]
  unfold spec_weight
  split_ifs <;> norm_num



theorem weighted_var_sum_le_sum (l : List EnrichedArticle) (i : ℕ)
    (h : ∀ a ∈ l, 0 ≤ a.value_at_risk) :
    weighted_var_sum l i ≤ (l.map EnrichedArticle.value_at_risk).sum := by
  induction l generalizing i with
  | nil => simp [weighted_var_sum]
  | cons a rest ih =>
      have ha : 0 ≤ a.value_at_risk := h a (List.mem_cons_self a rest)
      have h1 : a.value_at_risk * dedup_weight i ≤ a.value_at_risk :=
        mul_le_of_le_one_right ha (dedup_weight_le_one i)
      have h2 := ih (i + 1) (fun b hb => h b (List.mem_cons_of_mem a hb))
      simp only [weighted_var_sum, List.map_cons, List.sum_cons]
      linarith

theorem weighted_var_sum_enumFrom (l : List EnrichedArticle) (i : ℕ) :
    weighted_var_sum l i
      = ((List.enumFrom i l).map (fun p => spec_weight p.1 * p.2.value_at_risk)).sum := by
  induction l generalizing i with
  | nil => simp [weighted_var_sum]
  | cons a rest ih =>
      simp only [weighted_var_sum, List.enumFrom, List.map_cons, List.sum_cons]
      rw [ih (i + 1), dedup_weight_eq_spec, mul_comm]

theorem weighted_var_sum_congr {l1 l2 : List EnrichedArticle} (i : ℕ)
    (h : l1.map EnrichedArticle.value_at_risk = l2.map EnrichedArticle.value_at_risk) :
    weighted_var_sum l1 i = weighted_var_sum l2 i := by
  induction l1 generalizing l2 i with
  | nil =>
      cases l2 with
      | nil => rfl
      | cons b t => simp at h
  | cons a t ih =>
      cases l2 with
      | nil => simp at h
      | cons b t2 =>
          simp only [List.map_cons, List.cons.injEq] at h
          simp only [weighted_var_sum, h.1, ih (i + 1) h.2]

theorem sorted_by_var_sorted (l : List EnrichedArticle) :
    ((sorted_by_var l).map EnrichedArticle.value_at_risk).Sorted (fun a b : ℚ => b ≤ a) := by
  have htrans : ∀ (a b c : EnrichedArticle),
      (decide (b.value_at_risk ≤ a.value_at_risk)) = true →
      (decide (c.value_at_risk ≤ b.value_at_risk)) = true →
      (decide (c.value_at_risk ≤ a.value_at_risk)) = true := by
    intro a b c hab hbc
    simp only [decide_eq_true_eq] at *
    exact le_trans hbc hab
  have htotal : ∀ (a b : EnrichedArticle),
      ((decide (b.value_at_risk ≤ a.value_at_risk)) || (decide (a.value_at_risk ≤ b.value_at_risk))) = true := by
    intro a b
    simp [decide_eq_true_eq, le_total b.value_at_risk a.value_at_risk, or_comm]
  have := List.sorted_mergeSort htrans htotal l
  unfold sorted_by_var
  refine List.Pairwise.map _ ?_ this
  intro a b hab
  simpa using hab

theorem sorted_by_var_map_eq_of_perm {l1 l2 : List EnrichedArticle} (h : l1.Perm l2) :
    (sorted_by_var l1).map EnrichedArticle.value_at_risk
      = (sorted_by_var l2).map EnrichedArticle.value_at_risk := by
  haveI : IsAntisymm ℚ (fun a b : ℚ => b ≤ a) := ⟨fun a b h1 h2 => le_antisymm h2 h1⟩
  refine List.eq_of_perm_of_sorted ?_ (sorted_by_var_sorted l1) (sorted_by_var_sorted l2)
  exact ((List.mergeSort_perm l1 _).trans (h.trans (List.mergeSort_perm l2 _).symm)).map _

theorem total_var_impact_perm {l1 l2 : List EnrichedArticle} (h : l1.Perm l2) :
    total_var_impact l1 = total_var_impact l2 := by
  unfold total_var_impact
  rw [weighted_var_sum_congr 0 (sorted_by_var_map_eq_of_perm h)]



theorem sum_map_cent (l : List EnrichedArticle)
    (h : ∀ a ∈ l, ∃ n : ℕ, a.value_at_risk = (n : ℚ) / 100) :
    ∃ N : ℕ, (l.map EnrichedArticle.value_at_risk).sum = (N : ℚ) / 100 := by
  induction l with
  | nil => exact ⟨0, by simp⟩
  | cons a rest ih =>
      obtain ⟨n, hn⟩ := h a (List.mem_cons_self a rest)
      obtain ⟨N, hN⟩ := ih (fun b hb => h b (List.mem_cons_of_mem a hb))
      refine ⟨n + N, ?_⟩
      simp only [List.map_cons, List.sum_cons, hn, hN]
      push_cast
      ring

/-- Claim C2: the Risk Quantifier PortfolioRisk.totalValueAtRisk is the sum
of weight[i] * valueAtRisk[i] over the signals sorted by valueAtRisk
descending, with weights 1.0, 0.2, then 0.1 repeating, rounded to 2 decimals;
0 for an empty list. -/
theorem portfolio_var_aggregation_spec :
    (∀ l : List EnrichedArticle, total_var_impact l = spec_total_var l)
      ∧ total_var_impact [] = 0 := by
  have hempty : total_var_impact [] = 0 := by
    unfold total_var_impact sorted_by_var
    rw [List.mergeSort_nil]
    show round2 0 = 0
    exact round2_zero
  refine ⟨?_, hempty⟩
  intro l
  by_cases hl : l = []
  · subst hl
    rw [hempty]
    unfold spec_total_var
    simp
  · unfold spec_total_var
    rw [if_neg hl]
    unfold total_var_impact
    rw [weighted_var_sum_enumFrom]
    rfl

/-- Claim C8: the dedup-weighted portfolio VaR is at most the plain sum of
the valueAtRisk values of the enriched signals (which are 2-decimal
nonnegative quantities), and equals that valueAtRisk when there is exactly one
signal. -/
theorem dedup_var_le_plain_sum (l : List EnrichedArticle)
    (h : ∀ a ∈ l, ∃ n : ℕ, a.value_at_risk = (n : ℚ) / 100) :
    total_var_impact l ≤ (l.map EnrichedArticle.value_at_risk).sum
      ∧ ∀ a : EnrichedArticle, l = [a] → total_var_impact l = a.value_at_risk := by
  constructor
  · obtain ⟨N, hN⟩ := sum_map_cent l h
    have hperm : (sorted_by_var l).Perm l := List.mergeSort_perm l _
    have hsum : ((sorted_by_var l).map EnrichedArticle.value_at_risk).sum
        = (l.map EnrichedArticle.value_at_risk).sum := (hperm.map _).sum_eq
    have hnn : ∀ a ∈ sorted_by_var l, 0 ≤ a.value_at_risk := by
      intro a ha
      obtain ⟨n, hn⟩ := h a (hperm.subset ha)
      rw [hn]
      positivity
    have hle : weighted_var_sum (sorted_by_var l) 0 ≤ (N : ℚ) / 100 := by
      calc weighted_var_sum (sorted_by_var l) 0
          ≤ ((sorted_by_var l).map EnrichedArticle.value_at_risk).sum :=
            weighted_var_sum_le_sum _ 0 hnn
        _ = (N : ℚ) / 100 := by rw [hsum, hN]
    have h2 := round2_le_cent (weighted_var_sum (sorted_by_var l) 0) (N : ℤ)
      (by rw [Int.cast_natCast]; exact hle)
    rw [Int.cast_natCast] at h2
    unfold total_var_impact
    rw [hN]
    exact h2
  · intro a ha
    subst ha
    obtain ⟨n, hn⟩ := h a (List.mem_cons_self a [])
    unfold total_var_impact sorted_by_var
    rw [List.mergeSort_singleton]
    have h1 : weighted_var_sum [a] 0 = a.value_at_risk := by
      simp [weighted_var_sum, dedup_weight, DEDUP_WEIGHTS]
    rw [h1, hn]
    have h2 := round2_cent (n : ℤ)
    rw [Int.cast_natCast] at h2
    exact h2

/-- Witness for C8 at the one-element list with valueAtRisk 0. -/
theorem dedup_var_le_plain_sum_witness :
    total_var_impact [⟨0, 0, 1⟩]
        ≤ ([⟨0, 0, 1⟩].map EnrichedArticle.value_at_risk).sum
      ∧ total_var_impact [(⟨0, 0, 1⟩ : EnrichedArticle)] = (0 : ℚ) := by
  have h := dedup_var_le_plain_sum [⟨0, 0, 1⟩]
    (by intro a ha; simp at ha; subst ha; exact ⟨0, by simp⟩)
  exact ⟨h.1, h.2 ⟨0, 0, 1⟩ rfl⟩



theorem lookup_eq_none_of_not_mem_keys {β : Type} (k : String) (l : List (String × β))
    (h : k ∉ l.map Prod.fst) : l.lookup k = none := by
  induction l with
  | nil => rfl
  | cons p t ih =>
      obtain ⟨k1, v1⟩ := p
      simp only [List.map_cons, List.mem_cons, not_or] at h
      have hbeq : (k == k1) = false := beq_false_of_ne h.1
      simp [List.lookup, hbeq, ih h.2]

/-- Claim C1: the exposure score of every retained signal is
authority * severity * subjectRiskMultiplier * recencyMultiplier *
sentimentWeight rounded to 2 decimals, with the subject multiplier from the
fixed table (1 for unknown subjects) and the sentiment weights
negative=1, neutral=0.5, positive=0.1; the three spec examples evaluate to
67.5, 8.0 and 2.1. -/
theorem watcher_exposure_score_spec :
    (∀ (scores : Option ArticleScores) (rec : ℚ) (a : Article),
      score_article scores rec = some a →
        a.exposure_score = round2 ((a.authority_score : ℚ) * (a.severity_score : ℚ)
          * get_risk_multiplier a.subject * a.recency_multiplier
          * sentiment_weight a.sentiment))
    ∧ (∀ subject : String,
        pyLower (pyStrip subject) ∉ SUBJECT_RISK_MULTIPLIERS.map Prod.fst →
          get_risk_multiplier subject = 1)
    ∧ sentiment_weight "negative" = 1 ∧ sentiment_weight "neutral" = 1/2
    ∧ sentiment_weight "positive" = 1/10
    ∧ (score_article (some ⟨true, "security_fraud", 5, 5, "negative"⟩) (3/2)).map
        Article.exposure_score = some (135/2)
    ∧ (score_article (some ⟨true, "customer_service", 4, 4, "neutral"⟩) 1).map
        Article.exposure_score = some 8
    ∧ (score_article (some ⟨true, "customer_service", 3, 2, "neutral"⟩) (7/10)).map
        Article.exposure_score = some (21/10) := by
  refine ⟨?_, ?_, rfl, rfl, rfl, ?_, ?_, ?_⟩
  · intro scores rec a h
    cases scores with
    | none =>
        rw [score_article] at h
        injection h with h
        subst h
        rfl
    | some s =>
        rw [score_article] at h
        split at h
        · exact absurd h (by simp)
        · injection h with h
          subst h
          rfl
  · intro subject hsub
    unfold get_risk_multiplier
    rw [lookup_eq_none_of_not_mem_keys _ _ hsub]
    rfl
  · have e1 : score_article (some ⟨true, "security_fraud", 5, 5, "negative"⟩) (3/2)
        = some (mk_article "security_fraud" "negative" 5 5 (3/2)) := rfl
    rw [e1]
    show some ((mk_article "security_fraud" "negative" 5 5 (3/2)).exposure_score) = some (135/2)
    refine congrArg some ?_
    show round2 (((5 : ℤ) : ℚ) * ((5 : ℤ) : ℚ)
      * get_risk_multiplier "security_fraud" * (3/2) * sentiment_weight "negative") = 135/2
    rw [show get_risk_multiplier "security_fraud" = 9/5 from rfl,
        show sentiment_weight "negative" = 1 from rfl,
        round2_eval _ 6750 (by push_cast; norm_num)]
    norm_num
  · have e1 : score_article (some ⟨true, "customer_service", 4, 4, "neutral"⟩) 1
        = some (mk_article "customer_service" "neutral" 4 4 1) := rfl
    rw [e1]
    show some ((mk_article "customer_service" "neutral" 4 4 1).exposure_score) = some (8)
    refine congrArg some ?_
    show round2 (((4 : ℤ) : ℚ) * ((4 : ℤ) : ℚ)
      * get_risk_multiplier "customer_service" * 1 * sentiment_weight "neutral") = 8
    rw [show get_risk_multiplier "customer_service" = 1 from rfl,
        show sentiment_weight "neutral" = 1/2 from rfl,
        round2_eval _ 800 (by push_cast; norm_num)]
    norm_num
  · have e1 : score_article (some ⟨true, "customer_service", 3, 2, "neutral"⟩) (7/10)
        = some (mk_article "customer_service" "neutral" 3 2 (7/10)) := rfl
    rw [e1]
    show some ((mk_article "customer_service" "neutral" 3 2 (7/10)).exposure_score) = some (21/10)
    refine congrArg some ?_
    show round2 (((3 : ℤ) : ℚ) * ((2 : ℤ) : ℚ)
      * get_risk_multiplier "customer_service" * (7/10) * sentiment_weight "neutral") = 21/10
    rw [show get_risk_multiplier "customer_service" = 1 from rfl,
        show sentiment_weight "neutral" = 1/2 from rfl,
        round2_eval _ 210 (by push_cast; norm_num)]
    norm_num

/-- Witness for C1 at a concrete retained signal and a concrete unknown subject. -/
theorem watcher_exposure_score_spec_witness :
    (mk_article "security_fraud" "negative" 5 5 (3/2)).exposure_score
      = round2 (((mk_article "security_fraud" "negative" 5 5 (3/2)).authority_score : ℚ)
          * ((mk_article "security_fraud" "negative" 5 5 (3/2)).severity_score : ℚ)
          * get_risk_multiplier (mk_article "security_fraud" "negative" 5 5 (3/2)).subject
          * (mk_article "security_fraud" "negative" 5 5 (3/2)).recency_multiplier
          * sentiment_weight (mk_article "security_fraud" "negative" 5 5 (3/2)).sentiment)
    ∧ get_risk_multiplier "unknown_subject" = 1 :=
  ⟨watcher_exposure_score_spec.1 (some ⟨true, "security_fraud", 5, 5, "negative"⟩) (3/2)
      (mk_article "security_fraud" "negative" 5 5 (3/2)) rfl,
   watcher_exposure_score_spec.2.1 "unknown_subject" (by decide)⟩

/-- Claim C6: items whose provider analysis failed are retained with the
neutral defaults authority=3, severity=2, sentiment=neutral and the default
subject; under a total outage the watcher still returns one signal per
surviving item, all carrying exactly those defaults. -/
theorem provider_outage_neutral_defaults (items : List ItemAnalysis)
    (h : ∀ it ∈ items, it.scores = none) :
    (watcher_articles items).length = items.length
      ∧ ∀ a ∈ watcher_articles items,
          a.authority_score = 3 ∧ a.severity_score = 2
            ∧ a.sentiment = "neutral" ∧ a.subject = "ethics_management" := by
  have hfm : items.filterMap (fun it => score_article it.scores it.recency_mult)
      = items.map (fun it => mk_article "ethics_management" "neutral" 3 2 it.recency_mult) := by
    induction items with
    | nil => rfl
    | cons it rest ih =>
        have hit : it.scores = none := h it (List.mem_cons_self it rest)
        have hhead : score_article it.scores it.recency_mult
            = some (mk_article "ethics_management" "neutral" 3 2 it.recency_mult) := by
          rw [hit]
          rfl
        rw [List.filterMap_cons, hhead, List.map_cons,
          ih (fun b hb => h b (List.mem_cons_of_mem it hb))]
  have hperm : (watcher_articles items).Perm
      (items.map fun it => mk_article "ethics_management" "neutral" 3 2 it.recency_mult) := by
    unfold watcher_articles sort_by_exposure
    rw [hfm]
    exact List.mergeSort_perm _ _
  constructor
  · rw [hperm.length_eq, List.length_map]
  · intro a ha
    obtain ⟨it, hit, rfl⟩ := List.mem_map.mp (hperm.subset ha)
    exact ⟨rfl, rfl, rfl, rfl⟩

/-- Witness for C6 at a one-item outage. -/
theorem provider_outage_neutral_defaults_witness :
    (watcher_articles [⟨none, 1⟩]).length = [(⟨none, 1⟩ : ItemAnalysis)].length
      ∧ ∀ a ∈ watcher_articles [⟨none, 1⟩],
          a.authority_score = 3 ∧ a.severity_score = 2
            ∧ a.sentiment = "neutral" ∧ a.subject = "ethics_management" :=
  provider_outage_neutral_defaults [⟨none, 1⟩] (by decide)



theorem round2_intCast (m : ℤ) : round2 ((m : ℚ)) = (m : ℚ) := by
  rw [round2_eval ((m : ℚ)) (100 * m) (by push_cast; ring)]
  push_cast
  field_simp

theorem round2_natCast (n : ℕ) : round2 ((n : ℚ)) = (n : ℚ) := by
  have h := round2_intCast ((n : ℤ))
  rw [Int.cast_natCast] at h
  exact h

/-- The IGNORE branch of the invoice builder, as an explicit record. -/
theorem build_invoice_ignore (tier : Tier) (a2 a3 a4 : ℚ) (cc : ℕ) (tv : ℚ) :
    build_invoice_with_tier tier "IGNORE" a2 a3 a4 cc tv =
      ⟨tier.name, tier.label, tier.price, [], tier.price,
        roundTo 4 (a2 + a3 + a4), 0, 0, true⟩ := rfl

/-- The billed branch of the invoice builder, as an explicit record. -/
theorem build_invoice_not_ignore (tier : Tier) (lvl : String) (hne : lvl ≠ "IGNORE")
    (a2 a3 a4 : ℚ) (cc : ℕ) (tv : ℚ) :
    build_invoice_with_tier tier lvl a2 a3 a4 cc tv =
      ⟨tier.name, tier.label, tier.price,
        [⟨"Historical Strategist", "historical_precedents_extracted",
            round2 ((cc : ℚ) * 3 * CONSULTING_HOUR_RATE_EUR), roundTo 4 a2,
            round2 (if 0 < (cc : ℚ) * 3 * CONSULTING_HOUR_RATE_EUR
              then (((cc : ℚ) * 3 * CONSULTING_HOUR_RATE_EUR - a2)
                / ((cc : ℚ) * 3 * CONSULTING_HOUR_RATE_EUR)) * 100 else 0)⟩,
         ⟨"Risk Analyst", "risk_assessment_completed",
            round2 (BASE_AUDIT_FEE_EUR + tv * AUDIT_RISK_PERCENT), roundTo 4 a3,
            round2 (if 0 < round2 (BASE_AUDIT_FEE_EUR + tv * AUDIT_RISK_PERCENT)
              then ((round2 (BASE_AUDIT_FEE_EUR + tv * AUDIT_RISK_PERCENT) - a3)
                / round2 (BASE_AUDIT_FEE_EUR + tv * AUDIT_RISK_PERCENT)) * 100 else 0)⟩,
         ⟨"Executive Strategist", "crisis_strategy_delivered",
            CRISIS_STRATEGY_FEE_EUR, roundTo 4 a4,
            round2 (if 0 < CRISIS_STRATEGY_FEE_EUR
              then ((CRISIS_STRATEGY_FEE_EUR - a4) / CRISIS_STRATEGY_FEE_EUR) * 100 else 0)⟩],
        round2 ((cc : ℚ) * 3 * CONSULTING_HOUR_RATE_EUR
          + round2 (BASE_AUDIT_FEE_EUR + tv * AUDIT_RISK_PERCENT) + CRISIS_STRATEGY_FEE_EUR),
        roundTo 4 (a2 + a3 + a4),
        round2 (if 0 < tier.price
          then ((tier.price - roundTo 4 (a2 + a3 + a4)) / tier.price) * 100 else 0),
        roundTo 1 (if 0 < roundTo 4 (a2 + a3 + a4)
          then tier.price / roundTo 4 (a2 + a3 + a4) else 0),
        false⟩ := by
  unfold build_invoice_with_tier
  rw [if_neg hne]

/-- Claim C3 counterexample: for the alert label SOFT the derived tier is
Dismissed, yet the invoice carries three per-stage line items and
actionRefused = false. -/
theorem soft_label_dismissed_tier_still_billed :
    (get_tier "SOFT").name = "Dismissed"
      ∧ (build_invoice 0 0 0 0 0 "SOFT").action_refused = false
      ∧ (build_invoice 0 0 0 0 0 "SOFT").line_items.length = 3 :=
  ⟨rfl, rfl, rfl⟩

/-- Claim C3 (amended): only the alert label IGNORE produces the dismissed
invoice (no line items, fixed dismissed price, actionRefused = true); the
label SOFT maps to the Dismissed tier and its price but is billed with three
per-stage line items and actionRefused = false. -/
theorem dismissed_invoice_only_for_ignore_label (a2 a3 a4 : ℚ) (cc : ℕ) (tv : ℚ) :
    ((build_invoice a2 a3 a4 cc tv "IGNORE").line_items = []
      ∧ (build_invoice a2 a3 a4 cc tv "IGNORE").action_refused = true
      ∧ (build_invoice a2 a3 a4 cc tv "IGNORE").tier_price_eur = 99
      ∧ (build_invoice a2 a3 a4 cc tv "IGNORE").total_human_equivalent_eur = 99)
    ∧ ((get_tier "SOFT").name = "Dismissed"
      ∧ (build_invoice a2 a3 a4 cc tv "SOFT").tier_price_eur = 99
      ∧ (build_invoice a2 a3 a4 cc tv "SOFT").action_refused = false
      ∧ (build_invoice a2 a3 a4 cc tv "SOFT").line_items.length = 3) :=
  ⟨⟨rfl, rfl, rfl, rfl⟩, ⟨rfl, rfl, rfl, rfl⟩⟩

/-- Claim C4: the invoice at agent2 cost 1 (others 0), 0 cases, 0 VaR, label
MEDIUM: the code computes roiMultiplier = tierPrice / totalApiCost = 999,
while totalHumanEquivalent / totalApiCost = 3000 — the roi_multiplier field
contradicts its own declared formula. -/
theorem roi_multiplier_code_eval :
    (build_invoice 1 0 0 0 0 "MEDIUM").total_human_equivalent_eur = 3000
      ∧ (build_invoice 1 0 0 0 0 "MEDIUM").total_api_cost_eur = 1
      ∧ (build_invoice 1 0 0 0 0 "MEDIUM").roi_multiplier = 999
      ∧ (999 : ℚ) ≠ 3000 / 1 := by
  have hne : ("MEDIUM" : String) ≠ "IGNORE" := by decide
  have htier : get_tier "MEDIUM" = ⟨"Shield", "Crise Modérée", 999⟩ := rfl
  have hb : build_invoice 1 0 0 0 0 "MEDIUM"
      = build_invoice_with_tier ⟨"Shield", "Crise Modérée", 999⟩ "MEDIUM" 1 0 0 0 0 := by
    unfold build_invoice
    rw [htier]
  rw [hb, build_invoice_not_ignore _ _ hne]
  have hapi : roundTo 4 ((1 : ℚ) + 0 + 0) = 1 := by
    rw [roundTo_eq_of_mul 4 _ 10000 (by norm_num)]
    norm_num
  have hinner : BASE_AUDIT_FEE_EUR + (0 : ℚ) * AUDIT_RISK_PERCENT = ((500 : ℕ) : ℚ) := by
    norm_num [BASE_AUDIT_FEE_EUR, AUDIT_RISK_PERCENT]
  refine ⟨?_, hapi, ?_, by norm_num⟩
  · show round2 (((0 : ℕ) : ℚ) * 3 * CONSULTING_HOUR_RATE_EUR
      + round2 (BASE_AUDIT_FEE_EUR + 0 * AUDIT_RISK_PERCENT) + CRISIS_STRATEGY_FEE_EUR) = 3000
    rw [hinner, round2_natCast]
    rw [show ((0 : ℕ) : ℚ) * 3 * CONSULTING_HOUR_RATE_EUR + ((500 : ℕ) : ℚ)
        + CRISIS_STRATEGY_FEE_EUR = ((3000 : ℕ) : ℚ) from by
      norm_num [CONSULTING_HOUR_RATE_EUR, CRISIS_STRATEGY_FEE_EUR]]
    rw [round2_natCast]
    norm_num
  · show roundTo 1 (if 0 < roundTo 4 ((1 : ℚ) + 0 + 0)
      then (999 : ℚ) / roundTo 4 ((1 : ℚ) + 0 + 0) else 0) = 999
    rw [hapi, if_pos (by norm_num : (0 : ℚ) < 1)]
    rw [show (999 : ℚ) / 1 = 999 from by norm_num]
    rw [roundTo_eq_of_mul 1 999 9990 (by norm_num)]
    norm_num

/-- Claim C5 counterexample: two completion orders of the same per-item
results make scorer_node return differently ordered article lists — the
enriched list is not re-sorted after the join. -/
theorem scorer_output_order_depends_on_completion :
    ([some ⟨0, 1, 1⟩, some ⟨1, 2, 1⟩] : List (Option EnrichedArticle)).Perm
        [some ⟨1, 2, 1⟩, some ⟨0, 1, 1⟩]
      ∧ scorer_output_articles [some ⟨0, 1, 1⟩, some ⟨1, 2, 1⟩]
          ≠ scorer_output_articles [some ⟨1, 2, 1⟩, some ⟨0, 1, 1⟩] := by
  constructor
  · decide
  · decide

/-- Claim C5 (amended): the article list returned by the Risk Quantifier follows
thread completion order, but its portfolio aggregate total_var_impact is the
same for any completion order of the same per-item results; Signal
Ingestion returns a list deterministically sorted by exposure score
descending. -/
theorem stage_determinism_after_join :
    (∀ results1 results2 : List (Option EnrichedArticle), results1.Perm results2 →
        scorer_total_var results1 = scorer_total_var results2)
      ∧ (∀ items : List ItemAnalysis,
          (watcher_articles items).Pairwise
            (fun a b => b.exposure_score ≤ a.exposure_score)) := by
  constructor
  · intro r1 r2 h
    unfold scorer_total_var scorer_collect
    exact total_var_impact_perm (h.filterMap id)
  · intro items
    have htrans : ∀ (a b c : Article),
        (decide (b.exposure_score ≤ a.exposure_score)) = true →
        (decide (c.exposure_score ≤ b.exposure_score)) = true →
        (decide (c.exposure_score ≤ a.exposure_score)) = true := by
      intro a b c hab hbc
      simp only [decide_eq_true_eq] at *
      exact le_trans hbc hab
    have htotal : ∀ (a b : Article),
        ((decide (b.exposure_score ≤ a.exposure_score))
          || (decide (a.exposure_score ≤ b.exposure_score))) = true := by
      intro a b
      simp [decide_eq_true_eq, le_total b.exposure_score a.exposure_score, or_comm]
    have h := List.sorted_mergeSort htrans htotal
      (items.filterMap (fun it => score_article it.scores it.recency_mult))
    unfold watcher_articles sort_by_exposure
    refine h.imp ?_
    intro a b hab
    simpa using hab

/-- Witness for C5 (amended) at a two-element completion-order swap. -/
theorem stage_determinism_after_join_witness :
    scorer_total_var [some ⟨0, 1, 1⟩, some ⟨1, 2, 1⟩]
      = scorer_total_var [some ⟨1, 2, 1⟩, some ⟨0, 1, 1⟩] :=
  stage_determinism_after_join.1 _ _ (by decide)

/-- Claim C9: any alert label whose uppercase form is not one of IGNORE,
SOFT, MEDIUM, CRITICAL resolves to the Shield tier (price 999) and is billed
as a Shield-tier crisis with three line items, not dismissed. -/
theorem unknown_alert_label_shield_tier (lvl : String)
    (h : pyUpper lvl ∉ ["IGNORE", "SOFT", "MEDIUM", "CRITICAL"])
    (a2 a3 a4 : ℚ) (cc : ℕ) (tv : ℚ) :
    get_tier lvl = ⟨"Shield", "Crise Modérée", 999⟩
      ∧ (build_invoice a2 a3 a4 cc tv lvl).tier_name = "Shield"
      ∧ (build_invoice a2 a3 a4 cc tv lvl).tier_price_eur = 999
      ∧ (build_invoice a2 a3 a4 cc tv lvl).line_items.length = 3
      ∧ (build_invoice a2 a3 a4 cc tv lvl).action_refused = false := by
  have hkeys : pyUpper lvl ∉ TIER_PRICING.map Prod.fst := by
    simpa [TIER_PRICING] using h
  have htier : get_tier lvl = ⟨"Shield", "Crise Modérée", 999⟩ := by
    unfold get_tier
    rw [lookup_eq_none_of_not_mem_keys _ _ hkeys]
    rfl
  have hlvl : lvl ≠ "IGNORE" := by
    intro hcontra
    subst hcontra
    exact h (by decide)
  have hb : build_invoice a2 a3 a4 cc tv lvl
      = build_invoice_with_tier ⟨"Shield", "Crise Modérée", 999⟩ lvl a2 a3 a4 cc tv := by
    unfold build_invoice
    rw [htier]
  rw [hb, build_invoice_not_ignore _ _ hlvl]
  exact ⟨htier, rfl, rfl, rfl, rfl⟩

/-- Witness for C9 at the unrecognized label "hostile". -/
theorem unknown_alert_label_shield_tier_witness :
    get_tier "hostile" = ⟨"Shield", "Crise Modérée", 999⟩
      ∧ (build_invoice 0 0 0 0 0 "hostile").tier_price_eur = 999 := by
  have h := unknown_alert_label_shield_tier "hostile" (by decide) 0 0 0 0 0
  exact ⟨h.1, h.2.2.1⟩

/-- Claim C10: every division in the invoice builder is guarded — a line
item whose human-equivalent value is 0 gets margin 0, a tier price of 0
gives overall margin 0, and a total API cost of 0 gives roiMultiplier 0. -/
theorem invoice_builder_division_guards (tier : Tier) (lvl : String)
    (a2 a3 a4 : ℚ) (cc : ℕ) (tv : ℚ) :
    (∀ li ∈ (build_invoice_with_tier tier lvl a2 a3 a4 cc tv).line_items,
        li.human_equivalent_value_eur = 0 → li.gross_margin_percent = 0)
      ∧ (tier.price = 0 →
          (build_invoice_with_tier tier lvl a2 a3 a4 cc tv).total_gross_margin_percent = 0)
      ∧ ((build_invoice_with_tier tier lvl a2 a3 a4 cc tv).total_api_cost_eur = 0 →
          (build_invoice_with_tier tier lvl a2 a3 a4 cc tv).roi_multiplier = 0) := by
  by_cases hl : lvl = "IGNORE"
  · subst hl
    rw [build_invoice_ignore]
    refine ⟨?_, fun _ => rfl, fun _ => rfl⟩
    intro li hli
    simp at hli
  · rw [build_invoice_not_ignore tier lvl hl]
    refine ⟨?_, ?_, ?_⟩
    · intro li hli hval
      simp only [List.mem_cons, List.not_mem_nil, or_false] at hli
      rcases hli with rfl | rfl | rfl
      · simp only at hval ⊢
        have hc : (cc : ℚ) * 3 * CONSULTING_HOUR_RATE_EUR = ((450 * cc : ℕ) : ℚ) := by
          push_cast
          norm_num [CONSULTING_HOUR_RATE_EUR]
          ring
        rw [hc] at hval ⊢
        rw [round2_natCast] at hval
        have hcc : (450 * cc : ℕ) = 0 := by exact_mod_cast hval
        rw [hcc]
        norm_num [round2_zero]
      · simp only at hval ⊢
        rw [hval, if_neg (lt_irrefl (0 : ℚ))]
        exact round2_zero
      · simp only at hval
        norm_num [CRISIS_STRATEGY_FEE_EUR] at hval
    · intro hp
      simp only
      rw [hp, if_neg (lt_irrefl (0 : ℚ))]
      exact round2_zero
    · intro hapi
      simp only at hapi ⊢
      rw [hapi, if_neg (lt_irrefl (0 : ℚ))]
      exact roundTo_zero 1

/-- Witness for C10 at a zero-price tier. -/
theorem invoice_builder_division_guards_witness :
    (build_invoice_with_tier ⟨"T", "L", 0⟩ "MEDIUM" 0 0 0 0 0).total_gross_margin_percent = 0 :=
  (invoice_builder_division_guards ⟨"T", "L", 0⟩ "MEDIUM" 0 0 0 0 0).2.1 rfl



/-- Claim C7: Precedent Research returns the minimum (low < medium < high) of
the self-reported provider confidence and the deterministic source-quality
confidence; source quality is high iff at least 10 distinct sources and at
least 10000 characters, medium iff at least 4 sources and at least 3000
characters (and not high), and low otherwise. -/
theorem research_confidence_min_rule (provider : String) (chars srcs : ℕ)
    (hp : provider ∈ ["low", "medium", "high"]) :
    final_confidence provider chars srcs
        = conf_min provider (source_confidence chars srcs)
      ∧ (source_confidence chars srcs = "high" ↔ (10 ≤ srcs ∧ 10000 ≤ chars))
      ∧ (source_confidence chars srcs = "medium"
          ↔ ((4 ≤ srcs ∧ 3000 ≤ chars) ∧ ¬(10 ≤ srcs ∧ 10000 ≤ chars)))
      ∧ (source_confidence chars srcs = "low"
          ↔ (¬(10 ≤ srcs ∧ 10000 ≤ chars) ∧ ¬(4 ≤ srcs ∧ 3000 ≤ chars))) := by
  have hsrc : source_confidence chars srcs = "high"
      ∨ source_confidence chars srcs = "medium"
      ∨ source_confidence chars srcs = "low" := by
    unfold source_confidence
    split_ifs <;> simp
  simp only [List.mem_cons, List.not_mem_nil, or_false] at hp
  have hmin : final_confidence provider chars srcs
      = conf_min provider (source_confidence chars srcs) := by
    unfold final_confidence conf_min
    rcases hp with rfl | rfl | rfl <;> rcases hsrc with h | h | h <;> rw [h] <;> decide
  refine ⟨hmin, ?_⟩
  unfold source_confidence
  split_ifs with h1 h2
  · exact ⟨⟨fun _ => ⟨h1.2, h1.1⟩, fun _ => rfl⟩,
      ⟨fun h => absurd h (by decide), fun hh => absurd ⟨h1.2, h1.1⟩ hh.2⟩,
      ⟨fun h => absurd h (by decide), fun hh => absurd ⟨h1.2, h1.1⟩ hh.1⟩⟩
  · exact ⟨⟨fun h => absurd h (by decide), fun hh => absurd ⟨hh.2, hh.1⟩ h1⟩,
      ⟨fun _ => ⟨⟨h2.2, h2.1⟩, fun hh => h1 ⟨hh.2, hh.1⟩⟩, fun _ => rfl⟩,
      ⟨fun h => absurd h (by decide), fun hh => absurd ⟨h2.2, h2.1⟩ hh.2⟩⟩
  · exact ⟨⟨fun h => absurd h (by decide), fun hh => absurd ⟨hh.2, hh.1⟩ h1⟩,
      ⟨fun h => absurd h (by decide), fun hh => absurd ⟨hh.1.2, hh.1.1⟩ h2⟩,
      ⟨fun _ => ⟨fun hh => h1 ⟨hh.2, hh.1⟩, fun hh => h2 ⟨hh.2, hh.1⟩⟩, fun _ => rfl⟩⟩

/-- Witness for C7 at provider confidence high, 0 characters, 0 sources. -/
theorem research_confidence_min_rule_witness :
    final_confidence "high" 0 0 = conf_min "high" (source_confidence 0 0)
      ∧ (source_confidence 0 0 = "low"
          ↔ (¬(10 ≤ 0 ∧ 10000 ≤ 0) ∧ ¬(4 ≤ 0 ∧ 3000 ≤ 0))) := by
  have h := research_confidence_min_rule "high" 0 0 (by decide)
  exact ⟨h.1, h.2.2.2⟩


end CrisisPR
